import Mathlib

/-!
Verification of the `seo_platform` Python SDK against its specification.

The definitions below are a shallow embedding of the SDK source:
* `seo_platform/client.py` (class `SEOPlatform`): URL construction, response
  handling in `request`, websocket guards (`connect`, `disconnect`,
  `subscribe_to_project`, `on`, `off`), `__init__` header merging, `__exit__`.
* `seo_platform/resources/*.py`: the path / query / body built by each
  resource method.

Python values are modelled explicitly: an optional parameter is `Option α`
(`none` = the caller omitted it or passed `None`, `some v` = the caller
passed `v`); Python truthiness tests (`if tags:`) are modelled by dedicated
`pyTruthy*` functions; Python `str.rstrip('/')` / `str.lstrip('/')` by
`pyRstripSlash` / `pyLstripSlash`; a Python dict literal where later keys win
by an association list read with a last-occurrence-wins `dictGet`.
-/

namespace SeoPlatform

/-- A JSON-ish value carried in a query-parameter or body field. -/
inductive HVal where
  | s (v : String)
  | i (v : Int)
  | b (v : Bool)
  | strList (vs : List String)
deriving DecidableEq, Repr

/-- Python `str.rstrip('/')`: remove every trailing slash. -/
def pyRstripSlash (s : String) : String :=
  ⟨(s.data.reverse.dropWhile (fun c => c = '/')).reverse⟩

/-- Python `str.lstrip('/')`: remove every leading slash. -/
def pyLstripSlash (s : String) : String :=
  ⟨s.data.dropWhile (fun c => c = '/')⟩

/-- Python truthiness of an `Optional[List[str]]` value:
`None` and `[]` are falsy, a non-empty list is truthy. -/
def pyTruthyStrList : Option (List String) → Bool
  | none => false
  | some l => !l.isEmpty

/-- Python truthiness of an `Optional[str]` value:
`None` and the empty string are falsy. -/
def pyTruthyStr : Option String → Bool
  | none => false
  | some s => !s.isEmpty

/-- An HTTP response as seen by `SEOPlatform.request`: a status code, the
response headers, and the (possibly empty) decoded body. -/
structure HttpResponse where
  statusCode : Nat
  headers : List (String × String)
  content : Option String
deriving DecidableEq, Repr

/-- The failure cases raised by `SEOPlatform.request`, one constructor per
raise site in `client.py` (the source raises plain `Exception`s that are
distinguished only by the branch and message; the constructors record the
branch). -/
inductive ApiError where
  | rateLimited (msg : String)
  | authFailed (msg : String)
  | requestFailed (msg : String)
deriving DecidableEq, Repr

/-- `requests` header lookup (`response.headers.get(k)`), which is
case-insensitive on the header name; returns the first matching entry. -/
def headersGet (headers : List (String × String)) (k : String) : Option String :=
  (headers.find? (fun p => p.1.toLower = k.toLower)).map (fun p => p.2)

/-- `response.headers.get('Retry-After', 'unknown')` in `client.py`. -/
def retryAfterHint (r : HttpResponse) : String :=
  match headersGet r.headers "Retry-After" with
  | some v => v
  | none => "unknown"

/-- The response-handling tail of `SEOPlatform.request` (client.py lines
186-198): a 429 raises a rate-limit message carrying the `Retry-After` hint,
a 401 raises an authentication message, any other 4xx/5xx raises via
`raise_for_status` (re-wrapped by the `except` clause into a generic request
failure), and a 2xx with empty body yields `none`, otherwise the body. -/
def request_handle_response (r : HttpResponse) : Except ApiError (Option String) :=
  if r.statusCode = 429 then
    .error (.rateLimited
      ("Rate limit exceeded. Retry after " ++ retryAfterHint r ++ " seconds."))
  else if r.statusCode = 401 then
    .error (.authFailed "Authentication failed. Check your API key.")
  else if 400 ≤ r.statusCode ∧ r.statusCode < 600 then
    .error (.requestFailed ("API request failed: status " ++ toString r.statusCode))
  else
    .ok r.content

/-- `__init__` stores `base_url.rstrip('/')` (client.py line 59). -/
def clientStoredBaseUrl (base_url : String) : String :=
  pyRstripSlash base_url

/-- The URL built by `SEOPlatform.request` (client.py line 175):
`f'{self.base_url}/api/{self.version}/{endpoint.lstrip("/")}'`. -/
def request_url (base_url version endpoint : String) : String :=
  clientStoredBaseUrl base_url ++ "/api/" ++ version ++ "/" ++ pyLstripSlash endpoint

/-- The path built by `Projects.get` (projects.py): `f'/projects/{project_id}'`,
a plain f-string with no URL escaping applied. -/
def Projects.get_endpoint (project_id : String) : String :=
  "/projects/" ++ project_id

/-- The path built by `Keywords.get` (keywords.py): `f'/keywords/{keyword_id}'`,
a plain f-string with no URL escaping applied. -/
def Keywords.get_endpoint (keyword_id : String) : String :=
  "/keywords/" ++ keyword_id

/-- The path built by `Projects.delete` (projects.py):
`f'/projects/{project_id}'`. -/
def Projects.delete_endpoint (project_id : String) : String :=
  "/projects/" ++ project_id

/-- The path built by `Keywords.delete` (keywords.py):
`f'/keywords/{keyword_id}'`. -/
def Keywords.delete_endpoint (keyword_id : String) : String :=
  "/keywords/" ++ keyword_id

/-- The path built by `Rankings.history` (rankings.py):
`f'/keywords/{keyword_id}/rankings/history'`. -/
def Rankings.history_endpoint (keyword_id : String) : String :=
  "/keywords/" ++ keyword_id ++ "/rankings/history"

/-- The path built by `Rankings.track` (rankings.py):
`f'/projects/{project_id}/rankings/track'`. -/
def Rankings.track_endpoint (project_id : String) : String :=
  "/projects/" ++ project_id ++ "/rankings/track"

/-- The path built by `Audits.get` (audits.py): `f'/audits/{audit_id}'`. -/
def Audits.get_endpoint (audit_id : String) : String :=
  "/audits/" ++ audit_id

/-- The path built by `Audits.cancel` (audits.py):
`f'/audits/{audit_id}/cancel'`. -/
def Audits.cancel_endpoint (audit_id : String) : String :=
  "/audits/" ++ audit_id ++ "/cancel"

/-- The path built by `Audits.latest` (audits.py):
`f'/projects/{project_id}/audits/latest'`. -/
def Audits.latest_endpoint (project_id : String) : String :=
  "/projects/" ++ project_id ++ "/audits/latest"

/-- The path built by `Backlinks.stats` (backlinks.py):
`f'/projects/{project_id}/backlinks/stats'`. -/
def Backlinks.stats_endpoint (project_id : String) : String :=
  "/projects/" ++ project_id ++ "/backlinks/stats"

/-- The path built by `Backlinks.refresh` (backlinks.py):
`f'/projects/{project_id}/backlinks/refresh'`. -/
def Backlinks.refresh_endpoint (project_id : String) : String :=
  "/projects/" ++ project_id ++ "/backlinks/refresh"

/-- `sublistAt n h` decides whether the character list `n` occurs
contiguously somewhere inside `h`. -/
def sublistAt (n : List Char) : List Char → Bool
  | [] => n.isEmpty
  | c :: rest => n.isPrefixOf (c :: rest) || sublistAt n rest

/-- `strOccurs needle hay` decides whether `needle` is a substring of `hay`. -/
def strOccurs (needle hay : String) : Bool :=
  sublistAt needle.data hay.data

end SeoPlatform

namespace SeoPlatform

/-- C1: a 429 response whose `Retry-After` header holds `v` makes
`SEOPlatform.request` fail with the rate-limit error, and the error message
contains `v` as a substring. -/
theorem rate_limit_429_carries_retry_after (r : HttpResponse) (v : String)
    (h429 : r.statusCode = 429)
    (hdr : headersGet r.headers "Retry-After" = some v) :
    ∃ msg, request_handle_response r = .error (.rateLimited msg) ∧
      ∃ pre post, msg = pre ++ v ++ post := by
  refine ⟨"Rate limit exceeded. Retry after " ++ v ++ " seconds.", ?_,
    "Rate limit exceeded. Retry after ", " seconds.", rfl⟩
  simp [request_handle_response, retryAfterHint, h429, hdr]

/-- C1 witness: a concrete 429 response with header `Retry-After: 5` fails
with a rate-limit error whose message contains `"5"`. -/
theorem rate_limit_429_carries_retry_after_witness :
    ∃ msg,
      request_handle_response ⟨429, [("Retry-After", "5")], none⟩ =
        .error (.rateLimited msg) ∧
      ∃ pre post, msg = pre ++ "5" ++ post :=
  rate_limit_429_carries_retry_after ⟨429, [("Retry-After", "5")], none⟩ "5"
    rfl (by simp [headersGet])

end SeoPlatform

namespace SeoPlatform

theorem sublistAt_of_isPrefixOf {n h : List Char} (hp : n.isPrefixOf h = true) :
    sublistAt n h = true := by
  cases h with
  | nil =>
    cases n with
    | nil => rfl
    | cons a as => simp [List.isPrefixOf] at hp
  | cons c rest => simp [sublistAt, hp]

theorem sublistAt_append (pre n post : List Char) :
    sublistAt n (pre ++ (n ++ post)) = true := by
  induction pre with
  | nil =>
    simp only [List.nil_append]
    exact sublistAt_of_isPrefixOf ((List.isPrefixOf_iff_prefix).mpr (List.prefix_append n post))
  | cons c pre ih => simp [sublistAt, List.cons_append, ih]

/-- C3 counterexample: with base URL `https://x`, version `v1` and endpoint
`p`, the constructed URL is `https://x/api/v1/p`, which differs from the join
of exactly the base URL, the version segment and the endpoint
(`https://x/v1/p`): the code inserts an additional constant `api` segment. -/
theorem request_url_extra_api_segment_cex :
    request_url "https://x" "v1" "p" = "https://x/api/v1/p" ∧
    request_url "https://x" "v1" "p" ≠ "https://x" ++ "/" ++ "v1" ++ "/" ++ "p" := by
  decide

/-- C3 amended: the URL is the configured base URL (trailing slashes
stripped), then a constant `api` path segment, then the version segment, then
the endpoint (leading slashes stripped), joined with single slashes. -/
theorem request_url_amended (base_url version endpoint : String) :
    request_url base_url version endpoint =
      pyRstripSlash base_url ++ "/" ++ "api" ++ "/" ++ version ++ "/" ++
        pyLstripSlash endpoint := by
  have h : ("/api/" : String) = "/" ++ "api" ++ "/" := by decide
  simp [request_url, clientStoredBaseUrl, h, String.append_assoc]

/-- C4 counterexample: for the identifier `a b`, the constructed path of
`Projects.get` contains the identifier raw and does not contain its
URL-escaped form `a%20b`: no URL escaping is applied. -/
theorem id_not_url_escaped_cex :
    Projects.get_endpoint "a b" = "/projects/a b" ∧
    strOccurs "a%20b" (Projects.get_endpoint "a b") = false ∧
    strOccurs "a b" (Projects.get_endpoint "a b") = true := by
  decide

/-- A string occurs in any string that extends it on the left. -/
theorem strOccurs_append2 (pre mid : String) :
    strOccurs mid (pre ++ mid) = true := by
  have h := sublistAt_append pre.data mid.data []
  simpa [strOccurs, String.data_append] using h

/-- A string occurs in any string that extends it on both sides. -/
theorem strOccurs_append3 (pre mid post : String) :
    strOccurs mid (pre ++ mid ++ post) = true := by
  have h := sublistAt_append pre.data mid.data post.data
  simpa [strOccurs, String.data_append, List.append_assoc] using h

end SeoPlatform

namespace SeoPlatform

/-- An outgoing API request as handed to `SEOPlatform.request` by a resource
method: HTTP verb, endpoint path, optional query parameters, optional JSON
body. -/
structure ApiRequest where
  method : String
  endpoint : String
  params : Option (List (String × HVal))
  json : Option (List (String × HVal))
deriving DecidableEq, Repr

/-- One `if x is not None: data[k] = x` step: the field is present exactly
when the optional value is `some`. -/
def optField (k : String) (f : α → HVal) : Option α → List (String × HVal)
  | none => []
  | some v => [(k, f v)]

/-- `Projects.list` (projects.py): `params = {'limit': limit}`, then
`if cursor: params['cursor'] = cursor`; GET `/projects`. -/
def Projects.list (limit : Int) (cursor : Option String) : ApiRequest :=
  { method := "GET", endpoint := "/projects",
    params := some ([("limit", .i limit)] ++
      (if pyTruthyStr cursor then [("cursor", .s (cursor.getD ""))] else [])),
    json := none }

/-- `Projects.update` (projects.py): each field is added to the body only
under an `is not None` check; PUT `/projects/{project_id}`. -/
def Projects.update (project_id : String)
    (name domain target_country target_language : Option String)
    (is_active : Option Bool) : ApiRequest :=
  { method := "PUT", endpoint := "/projects/" ++ project_id,
    params := none,
    json := some (optField "name" .s name ++ optField "domain" .s domain ++
      optField "targetCountry" .s target_country ++
      optField "targetLanguage" .s target_language ++
      optField "isActive" .b is_active) }

/-- `Keywords.list` (keywords.py): GET `/projects/{project_id}/keywords`,
with no query parameters at all. -/
def Keywords.list (project_id : String) : ApiRequest :=
  { method := "GET", endpoint := "/projects/" ++ project_id ++ "/keywords",
    params := none, json := none }

/-- `Keywords.create` (keywords.py): `data = {'keyword': keyword}`, then
`if tags: data['tags'] = tags` (a truthiness check, not an `is not None`
check); POST `/projects/{project_id}/keywords`. -/
def Keywords.create (project_id keyword : String)
    (tags : Option (List String)) : ApiRequest :=
  { method := "POST", endpoint := "/projects/" ++ project_id ++ "/keywords",
    params := none,
    json := some ([("keyword", .s keyword)] ++
      (if pyTruthyStrList tags then [("tags", .strList (tags.getD []))] else [])) }

/-- `Rankings.list` (rankings.py): GET `/projects/{project_id}/rankings` with
`params = {'limit': limit, 'offset': offset}`. -/
def Rankings.list (project_id : String) (limit offset : Int) : ApiRequest :=
  { method := "GET", endpoint := "/projects/" ++ project_id ++ "/rankings",
    params := some [("limit", .i limit), ("offset", .i offset)],
    json := none }

/-- `Audits.list` (audits.py): GET `/projects/{project_id}/audits`, with no
query parameters at all. -/
def Audits.list (project_id : String) : ApiRequest :=
  { method := "GET", endpoint := "/projects/" ++ project_id ++ "/audits",
    params := none, json := none }

/-- `Audits.start` (audits.py): `data = {}`, then
`if max_pages is not None: data['maxPages'] = max_pages`; POST
`/projects/{project_id}/audits`. -/
def Audits.start (project_id : String) (max_pages : Option Int) : ApiRequest :=
  { method := "POST", endpoint := "/projects/" ++ project_id ++ "/audits",
    params := none,
    json := some (optField "maxPages" .i max_pages) }

/-- `Backlinks.list` (backlinks.py): GET `/projects/{project_id}/backlinks`
with `params = {}`, then `if status: params['status'] = status`. -/
def Backlinks.list (project_id : String) (status : Option String) : ApiRequest :=
  { method := "GET", endpoint := "/projects/" ++ project_id ++ "/backlinks",
    params := some (if pyTruthyStr status then [("status", .s (status.getD ""))] else []),
    json := none }

/-- The keys of the outgoing query-parameter dictionary. -/
def paramKeys (r : ApiRequest) : List String :=
  (r.params.getD []).map Prod.fst

/-- The keys of the outgoing JSON body. -/
def bodyKeys (r : ApiRequest) : List String :=
  (r.json.getD []).map Prod.fst

end SeoPlatform

namespace SeoPlatform

/-- C2 counterexample: in `Keywords.create`, the optional `tags` parameter is
guarded by Python truthiness, so an explicitly provided empty list does not
appear as a key in the outgoing body — refuting that an explicitly provided
optional parameter always appears. -/
theorem provided_empty_tags_dropped_cex :
    ¬ ("tags" ∈ bodyKeys (Keywords.create "p" "k" (some []))) := by
  decide

/-- C2 amended: an omitted optional parameter never appears as a key; an
explicitly provided one appears except where the source guards it by
truthiness rather than `is not None` — `tags` in `Keywords.create`, `cursor`
in `Projects.list` and `status` in `Backlinks.list` are dropped when provided
but falsy (empty list / empty string), while the `is not None`-guarded fields
of `Projects.update` and `Audits.start` appear whenever provided. -/
theorem optional_param_presence_amended (project_id keyword : String)
    (limit : Int) (tags : Option (List String))
    (name domain target_country target_language : Option String)
    (is_active : Option Bool) (max_pages : Option Int)
    (cursor status : Option String) :
    ("tags" ∈ bodyKeys (Keywords.create project_id keyword tags) ↔
      pyTruthyStrList tags = true) ∧
    ("name" ∈ bodyKeys (Projects.update project_id name domain target_country
      target_language is_active) ↔ name.isSome = true) ∧
    ("domain" ∈ bodyKeys (Projects.update project_id name domain target_country
      target_language is_active) ↔ domain.isSome = true) ∧
    ("targetCountry" ∈ bodyKeys (Projects.update project_id name domain
      target_country target_language is_active) ↔ target_country.isSome = true) ∧
    ("targetLanguage" ∈ bodyKeys (Projects.update project_id name domain
      target_country target_language is_active) ↔ target_language.isSome = true) ∧
    ("isActive" ∈ bodyKeys (Projects.update project_id name domain
      target_country target_language is_active) ↔ is_active.isSome = true) ∧
    ("maxPages" ∈ bodyKeys (Audits.start project_id max_pages) ↔
      max_pages.isSome = true) ∧
    ("cursor" ∈ paramKeys (Projects.list limit cursor) ↔
      pyTruthyStr cursor = true) ∧
    ("status" ∈ paramKeys (Backlinks.list project_id status) ↔
      pyTruthyStr status = true) := by
  refine ⟨?_, ?_, ?_, ?_, ?_, ?_, ?_, ?_, ?_⟩
  · cases tags with
    | none => simp [Keywords.create, bodyKeys, pyTruthyStrList]
    | some l =>
      by_cases hl : l.isEmpty <;>
        simp [Keywords.create, bodyKeys, pyTruthyStrList, hl]
  · cases name <;> cases domain <;> cases target_country <;>
      cases target_language <;> cases is_active <;>
      simp [Projects.update, bodyKeys, optField]
  · cases name <;> cases domain <;> cases target_country <;>
      cases target_language <;> cases is_active <;>
      simp [Projects.update, bodyKeys, optField]
  · cases name <;> cases domain <;> cases target_country <;>
      cases target_language <;> cases is_active <;>
      simp [Projects.update, bodyKeys, optField]
  · cases name <;> cases domain <;> cases target_country <;>
      cases target_language <;> cases is_active <;>
      simp [Projects.update, bodyKeys, optField]
  · cases name <;> cases domain <;> cases target_country <;>
      cases target_language <;> cases is_active <;>
      simp [Projects.update, bodyKeys, optField]
  · cases max_pages <;> simp [Audits.start, bodyKeys, optField]
  · cases cursor with
    | none => simp [Projects.list, paramKeys, pyTruthyStr]
    | some s =>
      by_cases hs : s.isEmpty <;>
        simp [Projects.list, paramKeys, pyTruthyStr, hs]
  · cases status with
    | none => simp [Backlinks.list, paramKeys, pyTruthyStr]
    | some s =>
      by_cases hs : s.isEmpty <;>
        simp [Backlinks.list, paramKeys, pyTruthyStr, hs]

/-- C8 counterexample: `Keywords.list` sends a request with no query
parameters at all — in particular no page-size limit and no offset or cursor
— refuting that every list operation accepts pagination parameters. -/
theorem keywords_list_no_pagination_cex :
    paramKeys (Keywords.list "p") = [] ∧
    ¬ ("limit" ∈ paramKeys (Keywords.list "p")) := by
  decide

/-- C8 amended: only `Projects.list` (limit + cursor) and `Rankings.list`
(limit + offset) take pagination parameters; `Keywords.list`, `Audits.list`
and `Backlinks.list` send no pagination keys — `Backlinks.list` only takes a
status filter. -/
theorem list_pagination_amended (project_id c : String) (limit offset : Int)
    (hc : c.isEmpty = false) :
    paramKeys (Projects.list limit (some c)) = ["limit", "cursor"] ∧
    paramKeys (Rankings.list project_id limit offset) = ["limit", "offset"] ∧
    paramKeys (Keywords.list project_id) = [] ∧
    paramKeys (Audits.list project_id) = [] ∧
    paramKeys (Backlinks.list project_id none) = [] := by
  refine ⟨?_, by simp [Rankings.list, paramKeys], by simp [Keywords.list, paramKeys],
    by simp [Audits.list, paramKeys], by simp [Backlinks.list, paramKeys, pyTruthyStr]⟩
  simp [Projects.list, paramKeys, pyTruthyStr, hc]

/-- C8 amended witness: the pagination parameter keys at concrete inputs. -/
theorem list_pagination_amended_witness :
    paramKeys (Projects.list 10 (some "c0")) = ["limit", "cursor"] ∧
    paramKeys (Rankings.list "p" 10 0) = ["limit", "offset"] ∧
    paramKeys (Keywords.list "p") = [] ∧
    paramKeys (Audits.list "p") = [] ∧
    paramKeys (Backlinks.list "p" none) = [] :=
  list_pagination_amended "p" "c0" 10 0 (by decide)

end SeoPlatform

namespace SeoPlatform

/-- The realtime channel (`self.sio`, a `socketio.Client`): a connection flag
and, modelled from the spec, the registered event handlers. `H` is the type
of handler callbacks. -/
structure Channel (H : Type) where
  connected : Bool
  handlers : List (String × H)

/-- Modelled from the spec: event registration on the socketio client (its
implementation is a third-party dependency, not part of this repository).
Per the spec, multiple handlers per event name are permitted and kept in
registration order. -/
def sioRegister (c : Channel H) (event : String) (h : H) : Channel H :=
  { c with handlers := c.handlers ++ [(event, h)] }

/-- Modelled from the spec: the handlers registered for an event, in
registration order. -/
def sioHandlersFor (c : Channel H) (event : String) : List H :=
  (c.handlers.filter (fun p => p.1 = event)).map (fun p => p.2)

/-- Modelled from the spec: delivering one arriving event invokes exactly the
handlers registered for that event name, in registration order. -/
def sioEmitInvocations (c : Channel H) (event : String) : List H :=
  sioHandlersFor c event

/-- Modelled from the spec: deregistering one specific handler for an
event. -/
def sioOffOne [DecidableEq H] (c : Channel H) (event : String) (h : H) :
    Channel H :=
  { c with handlers := c.handlers.filter (fun p => !decide (p.1 = event ∧ p.2 = h)) }

/-- Modelled from the spec: deregistering all handlers for an event. -/
def sioOffAll (c : Channel H) (event : String) : Channel H :=
  { c with handlers := c.handlers.filter (fun p => !decide (p.1 = event)) }

/-- `SEOPlatform.on` (client.py lines 131-143): raises `RuntimeError` when
the websocket is not enabled (`self.sio` is `None`), otherwise registers the
handler with the socketio client. -/
def client_on (sio : Option (Channel H)) (event : String) (handler : H) :
    Except String (Channel H) :=
  match sio with
  | none => .error "WebSocket not enabled"
  | some c => .ok (sioRegister c event handler)

/-- `SEOPlatform.off` (client.py lines 145-151): guarded by `if self.sio:`,
so it does nothing when the websocket is disabled; with a handler it removes
that handler, otherwise all handlers for the event. It has no raise path. -/
def client_off [DecidableEq H] (sio : Option (Channel H)) (event : String)
    (handler : Option H) : Except String (Option (Channel H)) :=
  match sio with
  | none => .ok none
  | some c =>
    match handler with
    | some h => .ok (some (sioOffOne c event h))
    | none => .ok (some (sioOffAll c event))

/-- `self.sio and self.sio.connected` as used by the guards in
`disconnect`, `subscribe_to_project`, `unsubscribe_from_project` and
`__exit__`. -/
def sioIsConnected : Option (Channel H) → Bool
  | none => false
  | some c => c.connected

/-- `SEOPlatform.disconnect` (client.py lines 112-115): disconnects only
when the channel exists and is connected. -/
def client_disconnect : Option (Channel H) → Option (Channel H)
  | none => none
  | some c => if c.connected then some { c with connected := false } else some c

/-- `SEOPlatform.subscribe_to_project` (client.py lines 117-122): raises
`RuntimeError` when the channel is absent or not connected, and only
otherwise emits one `subscribe:project` message. The second component is the
list of network messages sent. -/
def subscribe_to_project (sio : Option (Channel H)) (project_id : String) :
    Except String Unit × List (String × String) :=
  match sio with
  | none => (.error "WebSocket not connected", [])
  | some c =>
    if c.connected then (.ok (), [("subscribe:project", project_id)])
    else (.error "WebSocket not connected", [])

/-- The client state relevant to `__exit__`: the optional channel and
whether `self.session` has been closed. -/
structure PyClient (H : Type) where
  sio : Option (Channel H)
  sessionClosed : Bool

/-- `SEOPlatform.__exit__` (client.py lines 213-217): disconnect the channel
when it is connected, then close the HTTP session — with no condition on how
the block exited. -/
def client_exit (s : PyClient H) : PyClient H :=
  let s1 : PyClient H :=
    if sioIsConnected s.sio then { s with sio := client_disconnect s.sio } else s
  { s1 with sessionClosed := true }

/-- Python `with` semantics over the client: run the body (which may end in
an error and leaves the client in some state), then run `__exit__` on that
state unconditionally, propagating the body's outcome. -/
def runManaged (s : PyClient H)
    (body : PyClient H → Except E A × PyClient H) : Except E A × PyClient H :=
  let r := body s
  (r.1, client_exit r.2)

/-- Exiting always leaves the channel disconnected. -/
theorem client_exit_disconnects (st : PyClient H) :
    sioIsConnected (client_exit st).sio = false := by
  cases hs : st.sio with
  | none => simp [client_exit, sioIsConnected, hs]
  | some c =>
    by_cases hc : c.connected <;>
      simp [client_exit, sioIsConnected, client_disconnect, hs, hc]

end SeoPlatform

namespace SeoPlatform

/-- C5: whatever the body of a managed-use block does — including ending in
an error — exiting the block leaves the HTTP session closed and the realtime
channel disconnected, and the body's outcome (in particular its error) is
propagated unchanged. -/
theorem managed_block_always_cleans_up {H E A : Type} (s : PyClient H)
    (body : PyClient H → Except E A × PyClient H) :
    (runManaged s body).2.sessionClosed = true ∧
    sioIsConnected (runManaged s body).2.sio = false ∧
    (runManaged s body).1 = (body s).1 := by
  refine ⟨rfl, ?_, rfl⟩
  exact client_exit_disconnects (body s).2

/-- C5 witness: a body that fails while the channel is connected still exits
with the session closed and the channel disconnected, and the error is
propagated. -/
theorem managed_block_always_cleans_up_witness :
    (runManaged (PyClient.mk (some (Channel.mk true [])) false : PyClient Nat)
      (fun st => ((Except.error "boom" : Except String Unit), st))).2.sessionClosed = true ∧
    sioIsConnected (runManaged (PyClient.mk (some (Channel.mk true [])) false : PyClient Nat)
      (fun st => ((Except.error "boom" : Except String Unit), st))).2.sio = false ∧
    (runManaged (PyClient.mk (some (Channel.mk true [])) false : PyClient Nat)
      (fun st => ((Except.error "boom" : Except String Unit), st))).1 =
      ((fun (st : PyClient Nat) => ((Except.error "boom" : Except String Unit), st))
        (PyClient.mk (some (Channel.mk true [])) false)).1 :=
  managed_block_always_cleans_up (PyClient.mk (some (Channel.mk true [])) false)
    (fun st => ((Except.error "boom" : Except String Unit), st))

/-- C6: when the channel is absent or not connected, `subscribe_to_project`
fails with the descriptive `RuntimeError` message and emits no network
message. -/
theorem subscribe_disabled_fails_without_emit {H : Type}
    (sio : Option (Channel H)) (project_id : String)
    (h : sioIsConnected sio = false) :
    subscribe_to_project sio project_id =
      (.error "WebSocket not connected", []) := by
  cases sio with
  | none => rfl
  | some c =>
    simp only [sioIsConnected] at h
    simp [subscribe_to_project, h]

/-- C6 witness: subscribing with the websocket disabled fails and sends
nothing. -/
theorem subscribe_disabled_fails_without_emit_witness :
    subscribe_to_project (none : Option (Channel Nat)) "p" =
      (.error "WebSocket not connected", []) :=
  subscribe_disabled_fails_without_emit none "p" rfl

/-- C7: starting from a channel with no handlers for the event, registering
two handlers for the same event name and then delivering one event of that
name invokes both handlers, in registration order, exactly once each. -/
theorem two_handlers_invoked_in_order {H : Type} (c : Channel H)
    (event : String) (h1 h2 : H)
    (hempty : sioHandlersFor c event = []) :
    sioEmitInvocations (sioRegister (sioRegister c event h1) event h2) event =
      [h1, h2] := by
  simp only [sioHandlersFor, List.map_eq_nil_iff, List.filter_eq_nil_iff] at hempty
  simp only [sioEmitInvocations, sioHandlersFor, sioRegister, List.filter_append,
    List.map_append]
  rw [List.filter_eq_nil_iff.mpr hempty]
  simp

/-- C7 witness: two concrete handlers registered on a fresh channel for
`ranking:updated` are both invoked, first registered first. -/
theorem two_handlers_invoked_in_order_witness :
    sioEmitInvocations
      (sioRegister (sioRegister (Channel.mk false ([] : List (String × Nat)))
        "ranking:updated" 0) "ranking:updated" 1) "ranking:updated" = [0, 1] :=
  two_handlers_invoked_in_order (Channel.mk false []) "ranking:updated" 0 1 rfl

/-- C10: `off` has no raise path in any channel state — when the websocket is
disabled it returns leaving the state unchanged — while `on` in that same
state fails with the `RuntimeError` message. -/
theorem off_never_raises_while_on_raises {H : Type} [DecidableEq H]
    (sio : Option (Channel H)) (event : String) (handler : Option H) (h : H) :
    (∃ v, client_off sio event handler = .ok v) ∧
    client_off (none : Option (Channel H)) event handler = .ok none ∧
    client_on (none : Option (Channel H)) event h =
      .error "WebSocket not enabled" := by
  refine ⟨?_, rfl, rfl⟩
  cases sio with
  | none => exact ⟨none, rfl⟩
  | some c =>
    cases handler with
    | none => exact ⟨some (sioOffAll c event), rfl⟩
    | some hh => exact ⟨some (sioOffOne c event hh), rfl⟩

/-- C10 witness: concrete disabled-state calls of `off` and `on`. -/
theorem off_never_raises_while_on_raises_witness :
    (∃ v, client_off (none : Option (Channel Nat)) "e" none = .ok v) ∧
    client_off (none : Option (Channel Nat)) "e" none = .ok none ∧
    client_on (none : Option (Channel Nat)) "e" 0 =
      .error "WebSocket not enabled" :=
  off_never_raises_while_on_raises none "e" none 0

end SeoPlatform

namespace SeoPlatform

/-- Lookup in a Python dict built by inserting the entries of an association
list in order: on duplicate keys the last entry wins. -/
def dictGet (d : List (String × String)) (k : String) : Option String :=
  d.foldl (fun acc p => if p.1 = k then some p.2 else acc) none

/-- The headers installed on the session by `__init__` (client.py lines
64-71): the dict literal lists `Authorization`, `Content-Type` and
`X-API-Version` first and then splats `**(headers or {})`, so caller-supplied
entries come later and win on equal keys. -/
def init_session_headers (api_key version : String)
    (headers : Option (List (String × String))) : List (String × String) :=
  [("Authorization", "Bearer " ++ api_key),
   ("Content-Type", "application/json"),
   ("X-API-Version", version)] ++ headers.getD []

/-- Folding the last-wins lookup from an arbitrary accumulator: the list
overrides the accumulator exactly when it mentions the key. -/
theorem dictGet_foldl_init (k : String) (d : List (String × String))
    (init : Option String) :
    d.foldl (fun acc p => if p.1 = k then some p.2 else acc) init =
      match d.foldl (fun acc p => if p.1 = k then some p.2 else acc) none with
      | some v => some v
      | none => init := by
  induction d generalizing init with
  | nil => rfl
  | cons p d ih =>
    simp only [List.foldl_cons]
    rw [ih, ih (if p.1 = k then some p.2 else none)]
    by_cases hp : p.1 = k <;>
      cases hd : d.foldl (fun acc q => if q.1 = k then some q.2 else acc) none <;>
        simp [hp, hd]

/-- C9: a caller-supplied default-headers entry wins over the SDK's own
default header of the same name: whenever the custom mapping binds `k` to
`v`, the installed session headers bind `k` to `v`. -/
theorem caller_headers_take_precedence (api_key version k v : String)
    (custom : List (String × String))
    (hk : dictGet custom k = some v) :
    dictGet (init_session_headers api_key version (some custom)) k = some v := by
  unfold dictGet at hk ⊢
  unfold init_session_headers
  rw [Option.getD_some, List.foldl_append, dictGet_foldl_init, hk]

/-- C9 witness: a caller-supplied `Authorization` header replaces the SDK's
bearer-token header. -/
theorem caller_headers_take_precedence_witness :
    dictGet (init_session_headers "key" "v1"
      (some [("Authorization", "token abc")])) "Authorization" =
      some "token abc" :=
  caller_headers_take_precedence "key" "v1" "Authorization" "token abc"
    [("Authorization", "token abc")] (by simp [dictGet])

end SeoPlatform

namespace SeoPlatform

/-- C4 amended: in every resource method that takes a project, keyword or
audit identifier, the provided identifier appears verbatim — with no URL
escaping applied — in the constructed request path. The conjunction covers
all eighteen identifier-taking methods of the five resource facades. -/
theorem id_appears_verbatim (project_id keyword_id audit_id keyword : String)
    (tags : Option (List String))
    (name domain target_country target_language : Option String)
    (is_active : Option Bool) (limit offset : Int) (max_pages : Option Int)
    (status : Option String) :
    strOccurs project_id (Projects.get_endpoint project_id) = true ∧
    strOccurs project_id ((Projects.update project_id name domain
      target_country target_language is_active).endpoint) = true ∧
    strOccurs project_id (Projects.delete_endpoint project_id) = true ∧
    strOccurs project_id ((Keywords.list project_id).endpoint) = true ∧
    strOccurs keyword_id (Keywords.get_endpoint keyword_id) = true ∧
    strOccurs project_id ((Keywords.create project_id keyword tags).endpoint) = true ∧
    strOccurs keyword_id (Keywords.delete_endpoint keyword_id) = true ∧
    strOccurs project_id ((Rankings.list project_id limit offset).endpoint) = true ∧
    strOccurs keyword_id (Rankings.history_endpoint keyword_id) = true ∧
    strOccurs project_id (Rankings.track_endpoint project_id) = true ∧
    strOccurs project_id ((Audits.list project_id).endpoint) = true ∧
    strOccurs audit_id (Audits.get_endpoint audit_id) = true ∧
    strOccurs project_id ((Audits.start project_id max_pages).endpoint) = true ∧
    strOccurs audit_id (Audits.cancel_endpoint audit_id) = true ∧
    strOccurs project_id (Audits.latest_endpoint project_id) = true ∧
    strOccurs project_id ((Backlinks.list project_id status).endpoint) = true ∧
    strOccurs project_id (Backlinks.stats_endpoint project_id) = true ∧
    strOccurs project_id (Backlinks.refresh_endpoint project_id) = true := by
  refine ⟨strOccurs_append2 "/projects/" project_id,
    strOccurs_append2 "/projects/" project_id,
    strOccurs_append2 "/projects/" project_id,
    strOccurs_append3 "/projects/" project_id "/keywords",
    strOccurs_append2 "/keywords/" keyword_id,
    strOccurs_append3 "/projects/" project_id "/keywords",
    strOccurs_append2 "/keywords/" keyword_id,
    strOccurs_append3 "/projects/" project_id "/rankings",
    strOccurs_append3 "/keywords/" keyword_id "/rankings/history",
    strOccurs_append3 "/projects/" project_id "/rankings/track",
    strOccurs_append3 "/projects/" project_id "/audits",
    strOccurs_append2 "/audits/" audit_id,
    strOccurs_append3 "/projects/" project_id "/audits",
    strOccurs_append3 "/audits/" audit_id "/cancel",
    strOccurs_append3 "/projects/" project_id "/audits/latest",
    strOccurs_append3 "/projects/" project_id "/backlinks",
    strOccurs_append3 "/projects/" project_id "/backlinks/stats",
    strOccurs_append3 "/projects/" project_id "/backlinks/refresh"⟩

end SeoPlatform
